import Mathlib

/-!
Verification development for the agent-fleet core of `framework/wazuh/core/core_agent.py`:
the connectivity-status derivation, the keystore (client.keys) mutation paths, the
group-membership operations, and the WPK upgrade protocol engine.  Each Python function
the claims touch is shallowly embedded as an executable Lean definition; timestamps are
integer seconds, files are lists of bytes (`List Nat`), and daemon interactions are
modelled by their visible command/response data.
-/

/-! ## Connectivity status (`calculate_status`, core_agent.py:1542-1550) -/

inductive Status
  | never_connected
  | pending
  | active
  | disconnected
  deriving DecidableEq, Repr

/-- The value stored in `last_keep_alive`: Python `None`, the sentinel string
`'unknown'`, or a numeric epoch timestamp. -/
inductive KeepAlive
  | absent
  | unknown
  | ts (t : Int)
  deriving DecidableEq, Repr

/-- Embedding of `calculate_status` (core_agent.py:1542-1550).  Python truthiness:
`not last_keep_alive` holds for `None` and also for the integer `0`, and the sentinel
`'unknown'` is tested explicitly; otherwise
`difference = (today - utcfromtimestamp(last_keep_alive)).total_seconds()` is compared
against the configured threshold `common.limit_seconds` (a configuration constant,
passed here as the parameter `limit_seconds`).  Times are integer epoch seconds. -/
def calculate_status (last_keep_alive : KeepAlive) (pending : Bool)
    (today limit_seconds : Int) : Status :=
  match last_keep_alive with
  | .absent => .never_connected
  | .unknown => .never_connected
  | .ts t =>
    if t = 0 then .never_connected
    else if today - t > limit_seconds then .disconnected
    else if pending then .pending else .active

/-- The status derivation exactly as claim C1 words it (for comparison with
`calculate_status`): `never_connected` iff no heartbeat is recorded; otherwise
`elapsed = now - heartbeat` strictly above the threshold gives `disconnected`,
and within the threshold the version presence decides `active` vs `pending`. -/
def claimedStatus (heartbeat : Option Int) (hasVersion : Bool)
    (now limit_seconds : Int) : Status :=
  match heartbeat with
  | none => .never_connected
  | some t =>
    if now - t > limit_seconds then .disconnected
    else if hasVersion then .active else .pending

/-- Claim C1, counterexample: a recorded heartbeat at epoch timestamp `0`, well within
the freshness threshold and with a version present, is reported `never_connected` by
the code (Python truthiness of `0`), while the claimed derivation says `active`. -/
theorem claim_C1_counterexample :
    calculate_status (KeepAlive.ts 0) false 100 1830 ≠ claimedStatus (some 0) true 100 1830 := by
  decide

/-- Claim C1, amended: for every heartbeat timestamp other than `0` the derivation is
exactly as claimed (`pending` in the code is `version is None`, i.e. the negation of
`hasVersion`), and an absent heartbeat gives `never_connected`.  In particular elapsed
time equal to the threshold with a version present is `active`, and one second past the
threshold is `disconnected`. -/
theorem claim_C1_amended :
    (∀ (t : Int) (hasVersion : Bool) (now lim : Int), t ≠ 0 →
      calculate_status (KeepAlive.ts t) (!hasVersion) now lim
        = claimedStatus (some t) hasVersion now lim)
    ∧ (∀ (p : Bool) (now lim : Int),
        calculate_status KeepAlive.absent p now lim = Status.never_connected) := by
  constructor
  · intro t hasVersion now lim ht
    simp only [calculate_status, claimedStatus, if_neg ht]
    cases hasVersion <;> simp
  · intro p now lim
    rfl

/-- Claim C1 witness: heartbeat `5`, now `10`, threshold `5` — elapsed exactly at the
threshold, version present — is `active` on both sides. -/
theorem claim_C1_witness :
    (5 : Int) ≠ 0
    ∧ calculate_status (KeepAlive.ts 5) (!true) 10 5 = claimedStatus (some 5) true 10 5 :=
  ⟨by decide, claim_C1_amended.1 5 true 10 5 (by decide)⟩

/-- Claim C10: a heartbeat recorded as the integer `0` (epoch zero) or as the string
`'unknown'` is reported `never_connected` — never `disconnected` — indistinguishably
from no heartbeat at all, for every pending flag, current time and threshold. -/
theorem claim_C10_zero_heartbeat :
    ∀ (p : Bool) (now lim : Int),
      calculate_status (KeepAlive.ts 0) p now lim = Status.never_connected
      ∧ calculate_status KeepAlive.unknown p now lim = Status.never_connected
      ∧ calculate_status (KeepAlive.ts 0) p now lim ≠ Status.disconnected
      ∧ calculate_status (KeepAlive.ts 0) p now lim
          = calculate_status KeepAlive.absent p now lim := by
  intro p now lim
  refine ⟨rfl, rfl, ?_, rfl⟩
  simp [calculate_status]

/-! ## String helpers

Python's `str.split(',')`, `','.join(...)`, `str.startswith` and
`str.replace('err ', '')` are embedded as structural functions on the character
list of a `String`, so that every definition below evaluates by kernel reduction. -/

/-- Python `split(',')` on the character list: `[]` maps to `[[]]` (Python
`''.split(',') == ['']`), a comma starts a new field. -/
def splitCommaList : List Char → List (List Char)
  | [] => [[]]
  | c :: rest =>
    if c = ',' then [] :: splitCommaList rest
    else
      match splitCommaList rest with
      | [] => [[c]]
      | w :: ws => (c :: w) :: ws

/-- Python `s.split(',')`. -/
def splitComma (s : String) : List String :=
  (splitCommaList s.data).map (fun cs => String.mk cs)

/-- Python `','.join(gs)`. -/
def joinComma : List String → String
  | [] => ""
  | [g] => g
  | g :: gs => g ++ "," ++ joinComma gs

/-- Python `s.startswith(p)`. -/
def strStartsWith (s p : String) : Bool :=
  p.data.isPrefixOf s.data

/-! ## Group membership (core_agent.py:762-946)

The per-agent group file is a single comma-joined line; its contents (with newlines
already stripped, as both readers do) are the `String` state below.  Errors are the
numeric codes the source raises: 1737 is the membership-limit `ConflictError`,
1751 "group already belongs", 1752 "replace not allowed", 1745 "cannot remove the
last default group" (all `ConflictError`s), and 1734 "agent does not belong to
group" (`NotFoundError`). -/

/-- Embedding of `Agent.check_multigroup_limit` (core_agent.py:889-903): the current
group file (empty string when the file does not exist) has reached the configured
maximum `common.max_groups_per_multigroup` when the file is non-empty (Python
truthiness) and its comma-split has at least that many entries. -/
def check_multigroup_limit (group_read : String) (max_groups : Nat) : Bool :=
  if group_read ≠ "" then decide ((splitComma group_read).length ≥ max_groups)
  else false

/-- Embedding of the mutation core of `Agent.add_group_to_agent`
(core_agent.py:785-818), after the existence checks: read the agent's group file
(`multigroup_name`), either replace it by `group_id` (only when the current set is a
subset of `replace_list`, else 1752) or append `group_id` when absent (else 1751),
then reject with 1737 when `check_multigroup_limit` on the *current* file contents
says the limit is reached; only then is the file rewritten.  Returns the new file
contents or the raised error code. -/
def add_group_to_agent (multigroup_name group_id : String) (replace : Bool)
    (replace_list : List String) (max_groups : Nat) : Except Nat String :=
  match (if replace then
           (if (splitComma multigroup_name).all (fun g => g ∈ replace_list)
            then Except.ok group_id
            else Except.error 1752)
         else
           (if group_id ∈ splitComma multigroup_name
            then Except.error 1751
            else Except.ok
              ((if multigroup_name ≠ "" then multigroup_name ++ "," else "") ++ group_id))) with
  | Except.error e => Except.error e
  | Except.ok new_name =>
    if check_multigroup_limit multigroup_name max_groups then Except.error 1737
    else Except.ok new_name

/-- Group file contents after an `add_group_to_agent` call: the rewritten name on
success (`set_agent_group_file` is only reached at the end), the untouched contents
when any error is raised before it. -/
def add_group_file_after (multigroup_name group_id : String) (replace : Bool)
    (replace_list : List String) (max_groups : Nat) : String :=
  match add_group_to_agent multigroup_name group_id replace replace_list max_groups with
  | Except.ok new_name => new_name
  | Except.error _ => multigroup_name

/-- Embedding of `Agent.unset_single_group_agent` (core_agent.py:905-946), after the
existence checks: split the group file, 1734 when `group_id` is not a member, 1745
when removing `default` as the sole group; otherwise erase the first occurrence
(Python `list.remove`) and rewrite — comma-join when more than one group remains,
reset to `default` (reporting reassignment, the returned flag) when none remains,
the single remaining group otherwise. -/
def unset_single_group_agent (group_name group_id : String) : Except Nat (String × Bool) :=
  if group_id ∉ splitComma group_name then Except.error 1734
  else if group_id = "default" ∧ (splitComma group_name).length = 1 then Except.error 1745
  else
    match (splitComma group_name).erase group_id with
    | [] => Except.ok ("default", true)
    | [g] => Except.ok (g, false)
    | gs => Except.ok (joinComma gs, false)

/-- Group file contents after an `unset_single_group_agent` call (rewritten only on
success, untouched when an error is raised). -/
def unset_group_file_after (group_name group_id : String) : String :=
  match unset_single_group_agent group_name group_id with
  | Except.ok r => r.1
  | Except.error _ => group_name

/-- Claim C4: when the agent's current membership already holds the configured
maximum number of groups, adding a further (absent) group is rejected with the
membership-limit conflict 1737, and the group file afterwards is exactly the
contents it had before (no write happens on the rejected add). -/
theorem claim_C4_limit_reject :
    ∀ (mg gid : String) (rl : List String) (maxg : Nat),
      mg ≠ "" → (splitComma mg).length = maxg → gid ∉ splitComma mg →
      add_group_to_agent mg gid false rl maxg = Except.error 1737
      ∧ add_group_file_after mg gid false rl maxg = mg := by
  intro mg gid rl maxg hne hlen hnotin
  have hlim : check_multigroup_limit mg maxg = true := by
    simp [check_multigroup_limit, hne, hlen]
  have h1 : add_group_to_agent mg gid false rl maxg = Except.error 1737 := by
    simp [add_group_to_agent, hnotin, hlim]
  exact ⟨h1, by simp [add_group_file_after, h1]⟩

/-- Claim C4 witness: an agent in groups `default,g1` with the maximum set to 2 is
refused a third group `g2` and its group file is untouched. -/
theorem claim_C4_witness :
    ("default,g1" ≠ "" ∧ (splitComma "default,g1").length = 2
      ∧ "g2" ∉ splitComma "default,g1")
    ∧ add_group_to_agent "default,g1" "g2" false [] 2 = Except.error 1737
    ∧ add_group_file_after "default,g1" "g2" false [] 2 = "default,g1" :=
  ⟨⟨by decide, by decide, by decide⟩,
   claim_C4_limit_reject "default,g1" "g2" [] 2 (by decide) (by decide) (by decide)⟩

/-- Claim C5: removing `default` when it is the agent's only group raises the
conflict 1745 and leaves the file unchanged; removing any other group that is the
sole group succeeds, resets the membership to exactly `default`, and reports the
reassignment; removing a group the agent does not belong to raises the
not-found error 1734. -/
theorem claim_C5_unset_group :
    (unset_single_group_agent "default" "default" = Except.error 1745
      ∧ unset_group_file_after "default" "default" = "default")
    ∧ (∀ g : String, splitComma g = [g] → g ≠ "default" →
        unset_single_group_agent g g = Except.ok ("default", true))
    ∧ (∀ c g : String, g ∉ splitComma c →
        unset_single_group_agent c g = Except.error 1734) := by
  refine ⟨⟨by rfl, by rfl⟩, ?_, ?_⟩
  · intro g hsplit hg
    simp [unset_single_group_agent, hsplit, hg]
  · intro c g hnot
    simp [unset_single_group_agent, hnot]

/-- Claim C5 witness: agent whose sole group is `g1` — removing `g1` resets the
membership to `default` with the reassignment report; removing `x` from an agent in
`default` alone is the not-found error 1734. -/
theorem claim_C5_witness :
    (splitComma "g1" = ["g1"] ∧ "g1" ≠ "default" ∧ "x" ∉ splitComma "default")
    ∧ unset_single_group_agent "g1" "g1" = Except.ok ("default", true)
    ∧ unset_single_group_agent "default" "x" = Except.error 1734 :=
  ⟨⟨by decide, by decide, by decide⟩,
   claim_C5_unset_group.2.1 "g1" (by decide) (by decide),
   claim_C5_unset_group.2.2 "default" "x" (by decide)⟩

/-! ## Keystore enrollment and removal (core_agent.py:380-708)

`client.keys` is modelled as the list of its already-parsed data lines (id, name,
ip, key — the four space-separated fields); blank and `#`/space-prefixed raw lines,
which readers skip, carry no data and are omitted.  `Agent.check_if_delete_agent`
(a database read of the colliding agent's last heartbeat) is abstracted by the
oracle `stale`, and `Agent(...).remove(backup=True)` by recording the evicted id.
Key generation (`hashlib.md5` over timestamp/name/platform/random bytes) is
abstracted by the parameter `genKey`, taken when no key is supplied. -/

structure KeyEntry where
  kid : String
  kname : String
  kip : String
  kkey : String
  deriving DecidableEq, Repr

/-- Python `str.zfill(3)`: left-pad with `'0'` to length 3. -/
def zfill3 (s : String) : String :=
  if 3 ≤ s.length then s else String.mk (List.replicate (3 - s.length) '0') ++ s

/-- Python `int(s)` restricted to digit strings (keystore ids), `none` when the
field is not numeric (which `_add_manual` turns into the generic error 1725). -/
def parseNat? (s : String) : Option Nat :=
  if s.data ≠ [] ∧ s.data.all Char.isDigit
  then some (s.data.foldl (fun a c => a * 10 + (c.toNat - 48)) 0)
  else none

/-- A keystore line whose name starts with `#` or `!` (`line_data[1][0] in '#!'`,
core_agent.py:633) is a tombstone and is skipped by the collision scan. -/
def tombstoned (e : KeyEntry) : Bool :=
  strStartsWith e.kname "#" || strStartsWith e.kname "!"

/-- The requested-id collision test `if id and id == line_data[0]`
(core_agent.py:637): only a non-empty requested id is compared. -/
def reqIdMatches (reqId : Option String) (e : KeyEntry) : Bool :=
  match reqId with
  | some rid => (rid != "") && (rid == e.kid)
  | none => false

/-- Embedding of the collision scan of `Agent._add_manual` (core_agent.py:620-657):
walk the keystore lines tracking the maximal numeric id; skip tombstones; raise 1708
on requested-id collision; on a name (1705) or ip (1706) collision raise immediately
when `force < 0`, otherwise evict the colliding agent when `force == 0` or the
staleness oracle allows it, else raise.  When name and ip both collide the ip
outcome (`check_remove = 2`) wins, as in the source.  Returns the evictions
performed together with either the raised error or the final `last_id`. -/
def scanKeys (name ip : String) (reqId : Option String) (force : Int)
    (stale : String → Bool) :
    List KeyEntry → Nat → List String → List String × Except Nat Nat
  | [], lastId, ev => (ev, Except.ok lastId)
  | e :: rest, lastId, ev =>
    match parseNat? e.kid with
    | none => (ev, Except.error 1725)
    | some n =>
      if tombstoned e then
        scanKeys name ip reqId force stale rest (max lastId n) ev
      else if reqIdMatches reqId e then (ev, Except.error 1708)
      else if name = e.kname ∧ force < 0 then (ev, Except.error 1705)
      else if ip ≠ "any" ∧ ip = e.kip ∧ force < 0 then (ev, Except.error 1706)
      else if ip ≠ "any" ∧ ip = e.kip then
        (if force = 0 ∨ stale e.kid = true then
          scanKeys name ip reqId force stale rest (max lastId n) (ev ++ [e.kid])
         else (ev, Except.error 1706))
      else if name = e.kname then
        (if force = 0 ∨ stale e.kid = true then
          scanKeys name ip reqId force stale rest (max lastId n) (ev ++ [e.kid])
         else (ev, Except.error 1705))
      else
        scanKeys name ip reqId force stale rest (max lastId n) ev

/-- The key-length precheck shared by `_add_manual` (core_agent.py:597) and
`_add_authd` (core_agent.py:550): `if key and len(key) < 64` — a *non-empty*
supplied key shorter than 64 characters is rejected with 1709. -/
def keyTooShort : Option String → Bool
  | some k => (k != "") && decide (k.length < 64)
  | none => false

/-- Python `if id: id = id.zfill(3)` (core_agent.py:594-595): the empty string is
falsy and stays unpadded. -/
def zfillReqId (reqId : Option String) : Option String :=
  reqId.map (fun i => if i ≠ "" then zfill3 i else i)

/-- Embedding of `Agent._add_manual` (core_agent.py:580-708): key-length precheck
(1709), manager-name conflict (1705), then the keystore collision scan under the
lock; on success the assigned id is the requested one or `str(last_id+1).zfill(3)`,
and the key is the supplied one or the generated `genKey` (Python `if not key`).
Returns the evicted ids together with the error raised or the `(id, key)` pair
appended to the keystore. -/
def add_manual (managerName : String) (entries : List KeyEntry) (stale : String → Bool)
    (genKey name ip : String) (reqId : Option String) (key : Option String)
    (force : Int) : List String × Except Nat (String × String) :=
  if keyTooShort key then ([], Except.error 1709)
  else if name = managerName then ([], Except.error 1705)
  else
    match scanKeys name ip (zfillReqId reqId) force stale entries 0 [] with
    | (ev, Except.error c) => (ev, Except.error c)
    | (ev, Except.ok lastId) =>
      (ev, Except.ok
        (match zfillReqId reqId with
         | some rid => if rid ≠ "" then rid else zfill3 (Nat.repr (lastId + 1))
         | none => zfill3 (Nat.repr (lastId + 1)),
         match key with
         | some k => if k ≠ "" then k else genKey
         | none => genKey))

/-- The JSON request `_add_authd` would send to the enrollment daemon
(core_agent.py:555-560): with both a (truthy) id and key an insert request,
otherwise a plain add request; Python leaves `msg = ""` when name or ip is falsy. -/
inductive AuthdMsg
  | insert (name ip id key : String) (force : Int)
  | add (name ip : String) (force : Int)
  | empty
  deriving DecidableEq, Repr

/-- Embedding of `Agent._add_authd` (core_agent.py:533-565) up to the socket send:
the same key-length precheck (1709) runs before the daemon is contacted; on success
the value is the message handed to the daemon. -/
def add_authd (name ip : String) (reqId : Option String) (key : Option String)
    (force : Int) : Except Nat AuthdMsg :=
  if keyTooShort key then Except.error 1709
  else Except.ok
    (if name ≠ "" ∧ ip ≠ "" then
      (match zfillReqId reqId, key with
       | some rid, some k =>
         if rid ≠ "" ∧ k ≠ "" then AuthdMsg.insert name ip rid k force
         else AuthdMsg.add name ip force
       | _, _ => AuthdMsg.add name ip force)
     else AuthdMsg.empty)

/-- Collision-scan lemma behind claim C6: with a negative `force`, a registration
ip of `any` and no requested id, a keystore containing an active entry with the
requested name makes the scan raise 1705 with no eviction, for every staleness
oracle and starting `last_id`. -/
theorem scanKeys_name_collision :
    ∀ (entries : List KeyEntry) (name : String) (force : Int) (stale : String → Bool)
      (lastId : Nat),
      force < 0 →
      (∃ e ∈ entries, tombstoned e = false ∧ e.kname = name) →
      (∀ e ∈ entries, (parseNat? e.kid).isSome) →
      scanKeys name "any" none force stale entries lastId [] = ([], Except.error 1705) := by
  intro entries
  induction entries with
  | nil =>
    intro name force stale lastId _ hex _
    rcases hex with ⟨e, he, _⟩
    cases he
  | cons e rest ih =>
    intro name force stale lastId hf hex hwf
    obtain ⟨n, hn⟩ := Option.isSome_iff_exists.mp (hwf e (List.mem_cons_self e rest))
    have hwf' : ∀ x ∈ rest, (parseNat? x.kid).isSome :=
      fun x hx => hwf x (List.mem_cons_of_mem _ hx)
    by_cases ht : tombstoned e = true
    · have hex' : ∃ x ∈ rest, tombstoned x = false ∧ x.kname = name := by
        rcases hex with ⟨x, hx, hprop⟩
        rcases List.mem_cons.mp hx with rfl | hmem
        · rw [ht] at hprop; exact absurd hprop.1 (by simp)
        · exact ⟨x, hmem, hprop⟩
      simpa [scanKeys, hn, ht] using ih name force stale (max lastId n) hf hex' hwf'
    · by_cases hnm : name = e.kname
      · simp [scanKeys, hn, ht, reqIdMatches, hnm, hf]
      · have hex' : ∃ x ∈ rest, tombstoned x = false ∧ x.kname = name := by
          rcases hex with ⟨x, hx, hprop⟩
          rcases List.mem_cons.mp hx with rfl | hmem
          · exact absurd hprop.2.symm hnm
          · exact ⟨x, hmem, hprop⟩
        simpa [scanKeys, hn, ht, reqIdMatches, hnm] using
          ih name force stale (max lastId n) hf hex' hwf'

/-- Claim C6: an enrollment whose name collides with an active (non-tombstoned)
keystore entry, with a negative `force` (`forceSeconds = -1`), raises the duplicate
name conflict 1705 and evicts nobody — whatever the staleness oracle (i.e. however
long ago the colliding agent's last heartbeat was). -/
theorem claim_C6_force_negative :
    ∀ (managerName : String) (entries : List KeyEntry) (stale : String → Bool)
      (genKey name : String) (key : Option String) (force : Int),
      force < 0 →
      keyTooShort key = false →
      name ≠ managerName →
      (∃ e ∈ entries, tombstoned e = false ∧ e.kname = name) →
      (∀ e ∈ entries, (parseNat? e.kid).isSome) →
      add_manual managerName entries stale genKey name "any" none key force
        = ([], Except.error 1705) := by
  intro managerName entries stale genKey name key force hf hk hnm hex hwf
  have hscan := scanKeys_name_collision entries name force stale 0 hf hex hwf
  simp [add_manual, hk, hnm, zfillReqId, hscan]

/-- Claim C6 witness: a keystore holding active agent `agentA`, enrollment of the
same name with `force = -1` — error 1705, no eviction, even with a staleness oracle
that would allow every eviction. -/
theorem claim_C6_witness :
    ((-1 : Int) < 0
      ∧ keyTooShort none = false
      ∧ "agentA" ≠ "mgr"
      ∧ (∃ e ∈ [KeyEntry.mk "001" "agentA" "192.168.0.1" "k"],
          tombstoned e = false ∧ e.kname = "agentA")
      ∧ (∀ e ∈ [KeyEntry.mk "001" "agentA" "192.168.0.1" "k"],
          (parseNat? e.kid).isSome))
    ∧ add_manual "mgr" [KeyEntry.mk "001" "agentA" "192.168.0.1" "k"]
        (fun _ => true) "G" "agentA" "any" none none (-1)
        = ([], Except.error 1705) :=
  ⟨⟨by decide, by decide, by decide, by decide, by decide⟩,
   claim_C6_force_negative "mgr" _ _ "G" "agentA" none (-1)
     (by decide) (by decide) (by decide) (by decide) (by decide)⟩

/-- Claim C7, counterexample: Python's `if key and len(key) < 64` skips the check
for a supplied *empty* key (`''` is falsy), so a supplied key of length 0 — below
the 64-character minimum — is not rejected: `_add_manual` proceeds and generates a
key instead. -/
theorem claim_C7_counterexample :
    add_manual "manager" [] (fun _ => false) "G" "agent1" "any" none (some "") (-1)
      = ([], Except.ok ("001", "G"))
    ∧ ("" : String).length < 64
    ∧ add_manual "manager" [] (fun _ => false) "G" "agent1" "any" none (some "") (-1)
        ≠ ([], Except.error 1709) := by
  refine ⟨by rfl, by decide, ?_⟩
  intro h
  have h2 : add_manual "manager" [] (fun _ => false) "G" "agent1" "any" none
      (some "") (-1) = ([], Except.ok ("001", "G")) := rfl
  rw [h2] at h
  simp at h

/-- Claim C7, amended: a supplied *non-empty* key shorter than 64 characters is
rejected with the validation error 1709 on both enrollment paths, before any
keystore access (`_add_manual`'s result does not depend on the keystore, the
oracle, or any other field and performs no eviction) and before any daemon call
(`_add_authd` errors instead of producing a request message). -/
theorem claim_C7_short_key :
    ∀ (managerName : String) (entries : List KeyEntry) (stale : String → Bool)
      (genKey name ip : String) (reqId : Option String) (k : String) (force : Int),
      k ≠ "" → k.length < 64 →
      add_manual managerName entries stale genKey name ip reqId (some k) force
        = ([], Except.error 1709)
      ∧ add_authd name ip reqId (some k) force = Except.error 1709 := by
  intro managerName entries stale genKey name ip reqId k force hne hlt
  have hk : keyTooShort (some k) = true := by
    simp [keyTooShort, bne_iff_ne, hne, hlt]
  exact ⟨by simp [add_manual, hk], by simp [add_authd, hk]⟩

/-- Claim C7 witness: a 5-character key is rejected by both paths whatever the
other fields. -/
theorem claim_C7_witness :
    ("abcde" ≠ "" ∧ ("abcde" : String).length < 64)
    ∧ add_manual "mgr" [] (fun _ => false) "G" "a1" "any" none (some "abcde") 0
        = ([], Except.error 1709)
    ∧ add_authd "a1" "any" none (some "abcde") 0 = Except.error 1709 :=
  ⟨⟨by decide, by decide⟩,
   claim_C7_short_key "mgr" [] (fun _ => false) "G" "a1" "any" none "abcde" 0
     (by decide) (by decide)⟩

/-! ## Keystore mutation lock discipline (core_agent.py:380-490 and 614-703)

For claim C2 the two keystore mutation paths are abstracted to their sequences of
keystore-relevant events, read off the source in order: acquiring/releasing the
`fcntl` exclusive lock on `var/run/.api_lock`, reading `client.keys`, writing the
`client.keys.tmp` file, and the atomic `safe_move` rename over `client.keys`. -/

inductive KsEvent
  | acquireLock
  | releaseLock
  | readKeystore
  | writeTemp
  | renameTemp
  deriving DecidableEq, Repr

/-- Event trace of the enrollment mutation `Agent._add_manual` (success path):
`fcntl.lockf(..., LOCK_EX)` (line 617), the collision-scan read of `client.keys`
(620), `copyfile(client.keys, tmp)` — a read and a temp write (685), the key
append to the temp file (688-689), `safe_move(tmp, client.keys)` (692), and
`fcntl.lockf(..., LOCK_UN)` (702). -/
def addManualTrace : List KsEvent :=
  [KsEvent.acquireLock, KsEvent.readKeystore, KsEvent.readKeystore,
   KsEvent.writeTemp, KsEvent.writeTemp, KsEvent.renameTemp, KsEvent.releaseLock]

/-- Event trace of the removal mutation `Agent._remove_manual` (success path):
the interleaved read of `client.keys` and write of the tombstoned/purged temp
file (394-404), then `safe_move(tmp, client.keys)` (486).  No `fcntl` call
appears anywhere in `_remove_manual`. -/
def removeManualTrace : List KsEvent :=
  [KsEvent.readKeystore, KsEvent.writeTemp, KsEvent.renameTemp]

/-- The contract claim C2 states: every keystore read, temp-file write and rename
in the trace happens while the exclusive lock is held. -/
def accessesLocked : List KsEvent → Bool → Bool
  | [], _ => true
  | KsEvent.acquireLock :: r, _ => accessesLocked r true
  | KsEvent.releaseLock :: r, _ => accessesLocked r false
  | _ :: r, locked => locked && accessesLocked r locked

/-- Claim C2, counterexample: the removal path `_remove_manual` reads and rewrites
the keystore without holding the advisory lock — the lock discipline the claim
asserts for every mutation fails on its trace. -/
theorem claim_C2_counterexample :
    accessesLocked removeManualTrace false = false := by
  decide

/-- Claim C2, amended: the enrollment path `_add_manual` does acquire the exclusive
lock before reading the keystore and releases it only after the rename (every
access in its trace is under the lock), but the removal path `_remove_manual`
performs its read, rewrite and rename without ever touching the lock. -/
theorem claim_C2_lock_discipline :
    accessesLocked addManualTrace false = true
    ∧ KsEvent.acquireLock ∉ removeManualTrace
    ∧ KsEvent.releaseLock ∉ removeManualTrace := by
  decide

/-! ## WPK chunked transfer (core_agent.py:1183-1199 and 1411-1428)

The transfer loop of `_send_wpk_file` (and identically of `_send_custom_wpk_file`):
`bytes_read = file.read(chunk_size)` before the loop, then while `bytes_read` is
non-empty, send one `com write` command carrying the chunk, read the next chunk,
and — when a progress callback is supplied — add the size of that *next* read to
`bytes_read_acum` and report `int(acum*100/size) + (acum*100 % size > 0)`.
The file is a byte list, `file.read(n)` is take/drop, daemon responses are the
`ok` of a successful transfer (an `err` raises 1715 and aborts).  The loop is
embedded with explicit fuel (`file.length + 1` suffices for a positive chunk
size); each loop iteration yields the chunk sent and the progress value the
callback receives. -/

/-- The progress expression `int(bytes_read_acum * 100 / wpk_file_size) +
(bytes_read_acum * 100 % wpk_file_size > 0)` (core_agent.py:1198-1199), i.e. the
ceiling of `acum*100/size` (exact integer arithmetic; the Python float division is
exact at these magnitudes). -/
def progressValue (acum size : Nat) : Nat :=
  acum * 100 / size + (if acum * 100 % size > 0 then 1 else 0)

/-- One fuel-indexed unfolding of the transfer loop: `bytes_read` is the chunk
about to be sent, `rest` the unread remainder of the file, `acum` the running
`bytes_read_acum`.  Each element of the result is (chunk sent, progress reported
after sending it). -/
def sendLoopAux (size c : Nat) : Nat → List Nat → List Nat → Nat → List (List Nat × Nat)
  | 0, _, _, _ => []
  | fuel + 1, bytes_read, rest, acum =>
    if bytes_read = [] then []
    else
      (bytes_read, progressValue (acum + (rest.take c).length) size) ::
        sendLoopAux size c fuel (rest.take c) (rest.drop c) (acum + (rest.take c).length)

/-- The whole transfer loop of `_send_wpk_file` on file `f` with chunk size `c`:
initial read `f.take c`, remainder `f.drop c`, accumulator 0, size `f.length`. -/
def sendWpkLoop (f : List Nat) (c : Nat) : List (List Nat × Nat) :=
  sendLoopAux f.length c (f.length + 1) (f.take c) (f.drop c) 0

/-- The chunks sent, in order. -/
def wpkChunks (f : List Nat) (c : Nat) : List (List Nat) :=
  (sendWpkLoop f c).map Prod.fst

/-- The `com write` commands issued: for each chunk, the textual command
`"<id3> com write <len> <file> "` (core_agent.py:1189) paired with the raw chunk
bytes appended to it. -/
def writeCommands (id3 wpk : String) (f : List Nat) (c : Nat) : List (String × List Nat) :=
  (wpkChunks f c).map
    (fun ch => (id3 ++ " com write " ++ Nat.repr ch.length ++ " " ++ wpk ++ " ", ch))

/-- Ceiling division, for counting chunks. -/
def ceilDiv (a b : Nat) : Nat := (a + b - 1) / b

theorem sendLoopAux_nil (size c fuel : Nat) (rest : List Nat) (acum : Nat) :
    sendLoopAux size c fuel [] rest acum = [] := by
  cases fuel <;> simp [sendLoopAux]

/-- Concatenating the chunks the loop sends restores `bytes_read ++ rest`. -/
theorem sendLoopAux_join (size c : Nat) (hc : 0 < c) :
    ∀ (fuel : Nat) (br rest : List Nat) (acum : Nat), rest.length < fuel →
      ((sendLoopAux size c fuel br rest acum).map Prod.fst).flatten
        = if br = [] then [] else br ++ rest := by
  intro fuel
  induction fuel with
  | zero => intro br rest acum h; exact absurd h (Nat.not_lt_zero _)
  | succ n ih =>
    intro br rest acum h
    by_cases hbr : br = []
    · simp [sendLoopAux, hbr]
    · by_cases hrest : rest = []
      · subst hrest
        simp [sendLoopAux, hbr, sendLoopAux_nil]
      · have hlt : (rest.drop c).length < n := by
          have h1 : 0 < rest.length := List.length_pos.mpr hrest
          have h2 : (rest.drop c).length = rest.length - c := List.length_drop c rest
          omega
        have htake : rest.take c ≠ [] := by
          intro hteq
          rcases List.take_eq_nil_iff.mp hteq with h0 | h0
          · omega
          · exact hrest h0
        simp only [sendLoopAux, if_neg hbr, List.map_cons, List.flatten]
        rw [ih (rest.take c) (rest.drop c) _ hlt]
        simp [htake, List.take_append_drop]

theorem ceilDiv_zero_num (c : Nat) : ceilDiv 0 c = 0 := by
  unfold ceilDiv
  cases c with
  | zero => rfl
  | succ m => exact Nat.div_eq_of_lt (by omega)

theorem ceilDiv_step (m c : Nat) (hm : 0 < m) (hc : 0 < c) :
    1 + ceilDiv (m - c) c = ceilDiv m c := by
  by_cases hle : m ≤ c
  · have h0 : m - c = 0 := by omega
    rw [h0, ceilDiv_zero_num]
    unfold ceilDiv
    have : (m + c - 1) / c = 1 :=
      Nat.div_eq_of_lt_le (by omega) (by omega)
    omega
  · unfold ceilDiv
    have h1 : m - c + c - 1 = m - 1 := by omega
    have h2 : m + c - 1 = m - 1 + c := by omega
    rw [h1, h2, Nat.add_div_right _ hc]
    omega

/-- The loop performs one iteration per chunk: `1 + ceil(rest.length / c)` of them
when the initial read is non-empty. -/
theorem sendLoopAux_length (size c : Nat) (hc : 0 < c) :
    ∀ (fuel : Nat) (br rest : List Nat) (acum : Nat), rest.length < fuel → br ≠ [] →
      (sendLoopAux size c fuel br rest acum).length = 1 + ceilDiv rest.length c := by
  intro fuel
  induction fuel with
  | zero => intro br rest acum h _; exact absurd h (Nat.not_lt_zero _)
  | succ n ih =>
    intro br rest acum h hbr
    by_cases hrest : rest = []
    · subst hrest
      simp [sendLoopAux, hbr, sendLoopAux_nil, ceilDiv_zero_num]
    · have h1 : 0 < rest.length := List.length_pos.mpr hrest
      have hlt : (rest.drop c).length < n := by
        have h2 : (rest.drop c).length = rest.length - c := List.length_drop c rest
        omega
      have htake : rest.take c ≠ [] := by
        intro hteq
        rcases List.take_eq_nil_iff.mp hteq with h0 | h0
        · omega
        · exact hrest h0
      simp only [sendLoopAux, if_neg hbr, List.length_cons]
      rw [ih (rest.take c) (rest.drop c) _ hlt htake, List.length_drop]
      have := ceilDiv_step rest.length c h1 hc
      omega

/-- Claim C3: for every source file and positive chunk size, the `com write`
commands of the transfer loop carry chunks whose concatenation is byte-for-byte the
source file, there are exactly `ceil(size / chunkSize)` of them (so a 10240-byte
file with 1024-byte chunks issues exactly 10), and consequently any digest —
SHA-1 in the source — computed over the concatenation equals the digest of the
source file used for verification. -/
theorem claim_C3_chunked_transfer :
    ∀ (f : List Nat) (c : Nat) (id3 wpk : String), 0 < c →
      ((writeCommands id3 wpk f c).map Prod.snd).flatten = f
      ∧ (writeCommands id3 wpk f c).length = ceilDiv f.length c
      ∧ ∀ sha1 : List Nat → List Nat,
          sha1 (((writeCommands id3 wpk f c).map Prod.snd).flatten) = sha1 f := by
  intro f c id3 wpk hc
  have hsnd : (writeCommands id3 wpk f c).map Prod.snd = wpkChunks f c := by
    rw [writeCommands, List.map_map]
    exact List.map_id _
  have hjoin : (wpkChunks f c).flatten = f := by
    unfold wpkChunks sendWpkLoop
    rw [sendLoopAux_join f.length c hc (f.length + 1) (f.take c) (f.drop c) 0
        (by rw [List.length_drop]; omega)]
    by_cases hf : f = []
    · simp [hf]
    · have htake : f.take c ≠ [] := by
        intro hteq
        rcases List.take_eq_nil_iff.mp hteq with h0 | h0
        · omega
        · exact hf h0
      simp [htake, List.take_append_drop]
  have hlen : (wpkChunks f c).length = ceilDiv f.length c := by
    unfold wpkChunks sendWpkLoop
    by_cases hf : f = []
    · simp [hf, sendLoopAux_nil, ceilDiv_zero_num]
    · have hfl : 0 < f.length := List.length_pos.mpr hf
      have htake : f.take c ≠ [] := by
        intro hteq
        rcases List.take_eq_nil_iff.mp hteq with h0 | h0
        · omega
        · exact hf h0
      rw [List.length_map,
          sendLoopAux_length f.length c hc (f.length + 1) (f.take c) (f.drop c) 0
            (by rw [List.length_drop]; omega) htake,
          List.length_drop]
      have := ceilDiv_step f.length c hfl hc
      omega
  refine ⟨by rw [hsnd, hjoin], ?_, fun sha1 => by rw [hsnd, hjoin]⟩
  rw [writeCommands, List.length_map, hlen]

/-- Claim C3 witness: file `[1,2,3]` with chunk size 2 — two write commands
(`ceil(3/2)`), whose payloads concatenate back to the file. -/
theorem claim_C3_witness :
    0 < 2
    ∧ ((writeCommands "003" "w.wpk" [1, 2, 3] 2).map Prod.snd).flatten = [1, 2, 3]
    ∧ (writeCommands "003" "w.wpk" [1, 2, 3] 2).length = ceilDiv 3 2 :=
  ⟨by decide, (claim_C3_chunked_transfer [1, 2, 3] 2 "003" "w.wpk" (by decide)).1,
   (claim_C3_chunked_transfer [1, 2, 3] 2 "003" "w.wpk" (by decide)).2.1⟩

/-- Running partial sums: `prefixSums [x1, ..., xn] a = [a+x1, a+x1+x2, ...]`. -/
def prefixSums : List Nat → Nat → List Nat
  | [], _ => []
  | x :: xs, acc => (acc + x) :: prefixSums xs (acc + x)

/-- The progress sequence claim C9 asserts: after the k-th chunk the callback
receives the ceiling percentage of the bytes of chunks 1..k — the accumulator
grows by the chunk just sent. -/
def claimedProgressAux (size c : Nat) : Nat → List Nat → Nat → List Nat
  | 0, _, _ => []
  | fuel + 1, f, acc =>
    if f.take c = [] then []
    else
      progressValue (acc + (f.take c).length) size
        :: claimedProgressAux size c fuel (f.drop c) (acc + (f.take c).length)

/-- The claimed progress reports over a whole file. -/
def claimedProgress (f : List Nat) (c : Nat) : List Nat :=
  claimedProgressAux f.length c (f.length + 1) f 0

/-- Claim C9, counterexample: a 1-byte file sent in one chunk.  The claim says the
single report is 100; the code adds the *next* read (which is empty) to the
accumulator before reporting, so the callback receives 0 — the transfer never
reports 100. -/
theorem claim_C9_counterexample :
    (sendWpkLoop [0] 1).map Prod.snd = [0]
    ∧ claimedProgress [0] 1 = [100]
    ∧ (sendWpkLoop [0] 1).map Prod.snd ≠ claimedProgress [0] 1 := by
  decide

/-- The reports of the loop are the ceiling percentages of the partial sums of the
chunk sizes *shifted by one chunk*: the lengths of chunks 2..n followed by the
final empty read. -/
theorem sendLoopAux_snd (size c : Nat) (hc : 0 < c) :
    ∀ (fuel : Nat) (br rest : List Nat) (acum : Nat), rest.length < fuel → br ≠ [] →
      (sendLoopAux size c fuel br rest acum).map Prod.snd =
      (prefixSums
          (((sendLoopAux size c fuel br rest acum).map Prod.fst).tail.map List.length
            ++ [0]) acum).map
        (fun a => progressValue a size) := by
  intro fuel
  induction fuel with
  | zero => intro br rest acum h _; exact absurd h (Nat.not_lt_zero _)
  | succ n ih =>
    intro br rest acum h hbr
    by_cases hrest : rest = []
    · subst hrest
      simp [sendLoopAux, hbr, sendLoopAux_nil, prefixSums]
    · have h1 : 0 < rest.length := List.length_pos.mpr hrest
      have hlt : (rest.drop c).length < n := by
        have h2 : (rest.drop c).length = rest.length - c := List.length_drop c rest
        omega
      have htake : rest.take c ≠ [] := by
        intro hteq
        rcases List.take_eq_nil_iff.mp hteq with h0 | h0
        · omega
        · exact hrest h0
      obtain ⟨m, rfl⟩ : ∃ m, n = m + 1 := ⟨n - 1, by omega⟩
      have hinner :
          sendLoopAux size c (m + 1) (rest.take c) (rest.drop c)
              (acum + (rest.take c).length)
            = ((rest.take c),
               progressValue
                 ((acum + (rest.take c).length) + ((rest.drop c).take c).length) size)
              :: sendLoopAux size c m ((rest.drop c).take c) ((rest.drop c).drop c)
                   ((acum + (rest.take c).length) + ((rest.drop c).take c).length) := by
        simp [sendLoopAux, htake]
      have houter :
          sendLoopAux size c (m + 1 + 1) br rest acum
            = (br, progressValue (acum + (rest.take c).length) size)
              :: sendLoopAux size c (m + 1) (rest.take c) (rest.drop c)
                   (acum + (rest.take c).length) := by
        simp [sendLoopAux, hbr]
      rw [houter, List.map_cons, List.map_cons, List.tail_cons]
      rw [ih (rest.take c) (rest.drop c) (acum + (rest.take c).length) hlt htake]
      rw [hinner]
      simp [prefixSums]

/-- Claim C9, amended: when a progress callback is supplied, it is invoked once
per chunk, but the accumulator adds the size of the *following* read rather than
the chunk just sent — after the k-th of n chunks the reported value is
`ceil(100 * (bytes of chunks 2..k+1) / fileSize)` (the (n+1)-th read being empty),
so the final report stops at `ceil(100 * (fileSize - size of chunk 1) / fileSize)`
instead of reaching 100. -/
theorem claim_C9_progress_shifted :
    ∀ (f : List Nat) (c : Nat), 0 < c → f ≠ [] →
      (sendWpkLoop f c).map Prod.snd =
      (prefixSums ((wpkChunks f c).tail.map List.length ++ [0]) 0).map
        (fun a => progressValue a f.length) := by
  intro f c hc hf
  have htake : f.take c ≠ [] := by
    intro hteq
    rcases List.take_eq_nil_iff.mp hteq with h0 | h0
    · omega
    · exact hf h0
  have hlen : (f.drop c).length < f.length + 1 := by
    rw [List.length_drop]; omega
  exact sendLoopAux_snd f.length c hc (f.length + 1) (f.take c) (f.drop c) 0 hlen htake

/-- Claim C9 witness: file `[1,2,3]`, chunk size 2 — chunks `[1,2]` and `[3]`; the
code reports `ceil(100*1/3) = 34` after the first chunk (the next read's byte) and
34 again after the second (the final read is empty), matching the shifted
characterization. -/
theorem claim_C9_witness :
    (0 < 2 ∧ ([1, 2, 3] : List Nat) ≠ [])
    ∧ (sendWpkLoop [1, 2, 3] 2).map Prod.snd =
      (prefixSums ((wpkChunks [1, 2, 3] 2).tail.map List.length ++ [0]) 0).map
        (fun a => progressValue a ([1, 2, 3] : List Nat).length) :=
  ⟨⟨by decide, by decide⟩, claim_C9_progress_shifted [1, 2, 3] 2 (by decide) (by decide)⟩

/-! ## Upgrade result polling (`Agent.upgrade_result`, core_agent.py:1298-1346)

The daemon is abstracted as the sequence of responses it returns to the repeated
`com upgrade_result` requests (`responses k` is the reply to the k-th request).
The retry loop re-sends while the response starts with `err` and the attempt
counter is below the bound (`common.upgrade_result_retries`); the final response
is then interpreted: `ok 0` success, `ok 2` rolled back, anything else lost — the
latter two raised as error 1716 after emitting the corresponding notification
datagram. -/

/-- Python `data.replace("err ", "")` on the character list (replace every
occurrence, left to right). -/
def stripErrList : List Char → List Char
  | 'e' :: 'r' :: 'r' :: ' ' :: rest => stripErrList rest
  | ch :: rest => ch :: stripErrList rest
  | [] => []

/-- Python `data.replace("err ", "")`. -/
def replaceErr (s : String) : String :=
  String.mk (stripErrList s.data)

/-- The retry loop of `upgrade_result` (core_agent.py:1315-1327): while the
response starts with `err` and attempts remain, re-send and read the next
response.  `remaining` is `timeout - counter`. -/
def pollLoopGo (responses : Nat → String) : Nat → String → Nat → String
  | remaining, data, counter =>
    if strStartsWith data "err" then
      match remaining with
      | 0 => data
      | r + 1 => pollLoopGo responses r (responses (counter + 1)) (counter + 1)
    else data

/-- The final response the poll settles on: first response, then retries up to
`timeout` further attempts. -/
def pollLoop (responses : Nat → String) (timeout : Nat) : String :=
  pollLoopGo responses timeout (responses 0) 0

/-- Outcome of `upgrade_result`: a normal return with its message and emitted
notification, or a raised error with its code, extra message and emitted
notification. -/
inductive UpgradeOutcome
  | success (msg notification : String)
  | failure (code : Nat) (extra notification : String)
  deriving DecidableEq, Repr

def UpgradeOutcome.isSuccess : UpgradeOutcome → Bool
  | UpgradeOutcome.success _ _ => true
  | _ => false

/-- The notification datagram prefix shared by all three outcomes
(core_agent.py:1330-1345). -/
def upgradeNotif (id3 name tail : String) : String :=
  "1:wazuh-upgrade:wazuh: Upgrade procedure on agent " ++ id3 ++ " (" ++ name
    ++ "): " ++ tail

/-- Interpretation of the final poll response (core_agent.py:1329-1346):
`ok 0` → return "Agent upgraded successfully" with the "succeeded" notification;
`ok 2` → "restored to previous version" notification and error 1716; anything
else → "lost" notification and error 1716 with the `err `-stripped response. -/
def upgrade_result_interpret (data id3 name version : String) : UpgradeOutcome :=
  if strStartsWith data "ok 0" then
    UpgradeOutcome.success "Agent upgraded successfully"
      (upgradeNotif id3 name ("succeeded. New version: " ++ version))
  else if strStartsWith data "ok 2" then
    UpgradeOutcome.failure 1716 "Agent restored to previous version"
      (upgradeNotif id3 name "failed: restored to previous version")
  else
    UpgradeOutcome.failure 1716 (replaceErr data)
      (upgradeNotif id3 name ("lost: " ++ replaceErr data))

/-- `Agent.upgrade_result`: poll, then interpret the final response. -/
def upgrade_result (responses : Nat → String) (timeout : Nat)
    (id3 name version : String) : UpgradeOutcome :=
  upgrade_result_interpret (pollLoop responses timeout) id3 name version

/-- A string starting with `ok 2` does not start with `ok 0`. -/
theorem ok2_not_ok0 (s : String) (h : strStartsWith s "ok 2" = true) :
    strStartsWith s "ok 0" = false := by
  cases h0 : strStartsWith s "ok 0" with
  | false => rfl
  | true =>
    exfalso
    unfold strStartsWith at h h0
    have h2 : ("ok 2".data) <+: s.data := List.isPrefixOf_iff_prefix.mp h
    have h0' : ("ok 0".data) <+: s.data := List.isPrefixOf_iff_prefix.mp h0
    have e2 : ("ok 2".data) = s.data.take (("ok 2".data).length) :=
      List.prefix_iff_eq_take.mp h2
    have e0 : ("ok 0".data) = s.data.take (("ok 0".data).length) :=
      List.prefix_iff_eq_take.mp h0'
    have hlen : (("ok 2".data).length) = (("ok 0".data).length) := by decide
    rw [hlen] at e2
    have : ("ok 2".data) = ("ok 0".data) := e2.trans e0.symm
    exact absurd this (by decide)

/-- Claim C8: the poll's final response decides the outcome — `ok 0` returns the
success message with the "succeeded" notification; `ok 2` raises 1716 "restored to
previous version" with its notification; every other response raises 1716 with the
"lost" notification; hence the call returns normally iff the final response starts
with `ok 0`. -/
theorem claim_C8_upgrade_result :
    ∀ (responses : Nat → String) (timeout : Nat) (id3 name version : String),
      (strStartsWith (pollLoop responses timeout) "ok 0" = true →
        upgrade_result responses timeout id3 name version
          = UpgradeOutcome.success "Agent upgraded successfully"
              (upgradeNotif id3 name ("succeeded. New version: " ++ version)))
      ∧ (strStartsWith (pollLoop responses timeout) "ok 2" = true →
        upgrade_result responses timeout id3 name version
          = UpgradeOutcome.failure 1716 "Agent restored to previous version"
              (upgradeNotif id3 name "failed: restored to previous version"))
      ∧ (strStartsWith (pollLoop responses timeout) "ok 0" = false →
         strStartsWith (pollLoop responses timeout) "ok 2" = false →
        upgrade_result responses timeout id3 name version
          = UpgradeOutcome.failure 1716 (replaceErr (pollLoop responses timeout))
              (upgradeNotif id3 name ("lost: " ++ replaceErr (pollLoop responses timeout))))
      ∧ ((upgrade_result responses timeout id3 name version).isSuccess = true
          ↔ strStartsWith (pollLoop responses timeout) "ok 0" = true) := by
  intro responses timeout id3 name version
  refine ⟨?_, ?_, ?_, ?_⟩
  · intro h0
    simp [upgrade_result, upgrade_result_interpret, h0]
  · intro h2
    simp [upgrade_result, upgrade_result_interpret, ok2_not_ok0 _ h2, h2]
  · intro h0 h2
    simp [upgrade_result, upgrade_result_interpret, h0, h2]
  · cases h0 : strStartsWith (pollLoop responses timeout) "ok 0" with
    | true =>
      simp [upgrade_result, upgrade_result_interpret, h0, UpgradeOutcome.isSuccess]
    | false =>
      cases h2 : strStartsWith (pollLoop responses timeout) "ok 2" with
      | true =>
        simp [upgrade_result, upgrade_result_interpret, h0, h2, UpgradeOutcome.isSuccess]
      | false =>
        simp [upgrade_result, upgrade_result_interpret, h0, h2, UpgradeOutcome.isSuccess]

/-- Claim C8 witness: two `err` responses then `ok 0`, retry bound 10 — the poll
settles on `ok 0` and the call succeeds with the "succeeded" notification. -/
theorem claim_C8_witness :
    strStartsWith
      (pollLoop (fun k => if k < 2 then "err busy" else "ok 0") 10) "ok 0" = true
    ∧ upgrade_result (fun k => if k < 2 then "err busy" else "ok 0") 10
        "003" "ag3" "v3.10.0"
      = UpgradeOutcome.success "Agent upgraded successfully"
          (upgradeNotif "003" "ag3" ("succeeded. New version: " ++ "v3.10.0")) :=
  ⟨by rfl,
   (claim_C8_upgrade_result (fun k => if k < 2 then "err busy" else "ok 0") 10
      "003" "ag3" "v3.10.0").1 (by rfl)⟩
